import Mathlib

/-!
Verification of the delivery-api repository's ID-allocator variant
(`src/functions/index.js`, second document) and the `part_000` variant
(`src/unnamed/part_000`) against the natural-language specification.

The Firestore document store is embedded shallowly: each collection is an
association list from document key (a string) to a document record, and a
Firestore transaction body is an atomic state transition (Firestore's
`runTransaction` guarantees serializable execution of transaction bodies,
which is exactly the store guarantee the spec appeals to).
-/

set_option autoImplicit false

namespace DeliveryApi

/-- JavaScript JSON scalar values as they are stored in documents and
returned in response payloads. `num` carries an integer: every number this
API stores in the fields we model is produced from integer counters or from
`Number` applied to integer-literal strings. -/
inductive JsVal where
  | str (s : String)
  | num (n : Int)
  | null
  deriving DecidableEq, Repr

/-- An error thrown by the helpers: `e.code`, `e.message` and the optional
`e.payload` object (modelled as a key/value list, mirroring the JS object
spread used to build it). -/
structure Err where
  code : Nat
  message : String
  payload : Option (List (String × JsVal))
  deriving DecidableEq, Repr

/-- A document of the `user` collection in the ID-allocator variant
(the `data` object built in `createUser`). -/
structure UserDoc where
  user_id : Nat
  name : String
  password : String
  phone : String
  picture : Option String
  role : Int
  deriving DecidableEq, Repr

/-- A document of the `user_address` collection in the ID-allocator variant
(the `payload` object built in `createAddress`). -/
structure AddrDoc where
  address_id : Nat
  user_id : JsVal
  address : String
  lat : Option Int
  lng : Option Int
  deriving DecidableEq, Repr

/-- A document of the `rider_car` collection in the ID-allocator variant
(the `payload` object built in `createRiderCar`). -/
structure RiderDoc where
  rider_id : Nat
  user_id : JsVal
  image_car : Option String
  plate_number : String
  car_type : String
  deriving DecidableEq, Repr

/-- The Firestore state of the ID-allocator variant: the `_counters`,
`user`, `user_address` and `rider_car` collections, each an association
list from document key to document. -/
structure Store where
  counters : List (String × Nat)
  users : List (String × UserDoc)
  addresses : List (String × AddrDoc)
  riderCars : List (String × RiderDoc)
  deriving DecidableEq, Repr

/-- Write document `v` at key `k`: Firestore `set` (and `update` on an
existing document) replaces the document at the key, creating it if absent. -/
def upsert {α : Type} : List (String × α) → String → α → List (String × α)
  | [], k, v => [(k, v)]
  | (k', v') :: rest, k, v =>
    if k' = k then (k, v) :: rest else (k', v') :: upsert rest k v

/-- The integer value of the counter record for `seq`, reading an absent
record as 0 (this is the `snap.exists ? Number(snap.data().value || 0) : 0`
read in `nextId`). -/
def counterVal (counters : List (String × Nat)) (seq : String) : Nat :=
  (counters.lookup seq).getD 0

/-- Shallow embedding of `nextId(sequence)` (src/functions/index.js:199-213).
The `db.runTransaction` body is modelled as one atomic state transition:
it reads the counter record for `sequence` (absent record read as current
value 0), computes `next = current + 1`, writes `next` back (`tx.set` when
the record was absent, `tx.update` otherwise — both are the same upsert on
the modelled store) and returns `next`. -/
def nextId (st : Store) (sequence : String) : Nat × Store :=
  let current : Nat :=
    match st.counters.lookup sequence with
    | some v => v
    | none => 0
  let next := current + 1
  (next, { st with counters := upsert st.counters sequence next })

/-- N serialized executions of the `nextId` transaction for the same
sequence, returning the list of allocated values. Firestore serializes
racing transaction bodies, so any concurrent execution of N `nextId` calls
is equivalent to this for some order; since all N calls are identical, the
serial composition below covers every order. -/
def allocateMany (seq : String) : Nat → Store → List Nat × Store
  | 0, st => ([], st)
  | n + 1, st =>
    let p := nextId st seq
    let q := allocateMany seq n p.2
    (p.1 :: q.1, q.2)

/-- Modelled from the spec: the bounded retry loop around the transaction
body is code missing from `src/` — it lives in the Firestore client's
`runTransaction`, which `nextId` calls; the spec requires that an aborted
transaction is retried a bounded number of times and that a terminal
`StoreUnavailable` error surfaces once the attempts are exhausted.
`commits i = true` means the i-th attempt's transaction commits; an aborted
attempt leaves the store unchanged (its writes are discarded). `fuel` is
the number of attempts remaining. -/
def allocateAttempts : Nat → (Nat → Bool) → Nat → Store → String →
    Except Err (Nat × Store)
  | 0, _, _, _, _ => .error ⟨503, "StoreUnavailable", none⟩
  | fuel + 1, commits, i, st, seq =>
    if commits i then .ok (nextId st seq)
    else allocateAttempts fuel commits (i + 1) st seq

/-- Modelled from the spec: the allocator with the Firestore client's
bounded-retry transaction runner wrapped around the `nextId` transaction
body, starting at attempt 0 with `budget` attempts. -/
def allocateWithRetry (budget : Nat) (commits : Nat → Bool) (st : Store)
    (seq : String) : Except Err (Nat × Store) :=
  allocateAttempts budget commits 0 st seq

/-- The fields of a stored user document as they appear when the document's
data is spread into a JS object (`...d.data()`), in insertion order. -/
def userDocFields (u : UserDoc) : List (String × JsVal) :=
  [("user_id", .num u.user_id), ("name", .str u.name),
   ("password", .str u.password), ("phone", .str u.phone),
   ("picture", (u.picture.map JsVal.str).getD .null), ("role", .num u.role)]

/-- Shallow embedding of `assertPhoneNotDuplicate` of the ID-allocator
variant (src/functions/index.js:218-231): an equality lookup on `phone`
limited to one match (the first matching document of the collection); on a
match it throws code 409 with payload `{ id: d.id, ...d.data() }`. -/
def assertPhoneNotDuplicate (users : List (String × UserDoc)) (phone : String) :
    Except Err Unit :=
  match users.find? (fun p => p.2.phone == phone) with
  | some d =>
    .error ⟨409, "phone already exists", some (("id", .str d.1) :: userDocFields d.2)⟩
  | none => .ok ()

/-- Shallow embedding of `normalizeRoleInt` (src/functions/index.js:233-241):
`Number(role ?? 0)` must be 0 or 1. The `role` argument is the numeric value
of the supplied role (`none` when absent); callers in the source pass the
literals 0 and 1. -/
def normalizeRoleInt (role : Option Int) : Except Err Int :=
  let r := role.getD 0
  if r ≠ 0 ∧ r ≠ 1 then .error ⟨400, "role must be 0 or 1", none⟩ else .ok r

/-- The value `{ id, ...data }` returned by a successful `createUser`. -/
structure CreatedUser where
  id : String
  doc : UserDoc
  deriving DecidableEq, Repr

/-- Shallow embedding of `createUser` of the ID-allocator variant
(src/functions/index.js:246-269): validates `name`, `password`, `phone`
non-empty (JS falsiness of a string is emptiness), normalizes the role,
checks the phone for duplicates, allocates `user_seq`, and writes the user
document at key `String(idNum)`. -/
def createUser (st : Store) (name password phone : String)
    (picture : Option String) (role : Option Int) :
    Except Err CreatedUser × Store :=
  if name = "" ∨ password = "" ∨ phone = "" then
    (.error ⟨400, "name, password, phone are required", none⟩, st)
  else
    match normalizeRoleInt role with
    | .error e => (.error e, st)
    | .ok roleInt =>
      match assertPhoneNotDuplicate st.users phone with
      | .error e => (.error e, st)
      | .ok _ =>
        let p := nextId st "user_seq"
        let id := toString p.1
        let data : UserDoc :=
          { user_id := p.1, name := name, password := password, phone := phone,
            picture := match picture with
              | some s => if s = "" then none else some s
              | none => none,
            role := roleInt }
        (.ok { id := id, doc := data },
         { p.2 with users := upsert p.2.users id data })

/-- The value `{ id, ...payload }` returned by a successful `createAddress`. -/
structure CreatedAddr where
  id : String
  doc : AddrDoc
  deriving DecidableEq, Repr

/-- A decimal digit character (code points 48-57). -/
def isDigitChar (c : Char) : Bool := 48 ≤ c.toNat && c.toNat ≤ 57

/-- The numeric value of a list of decimal digit characters. -/
def digitsVal (l : List Char) : Nat :=
  l.foldl (fun a c => a * 10 + (c.toNat - 48)) 0

/-- Models the JavaScript coercion `Number(s)` for a string, on the fragment
of strings this API manipulates: the empty string (which `Number` maps
to 0) and optionally `-`-signed decimal digit strings. Other numeric
literal shapes (whitespace, `+` signs, decimal points, exponents, hex) do
not arise from this API's ids and are mapped to `none`, as are all
non-numeric strings; `none` stands for `NaN`. -/
def jsNumber (s : String) : Option Int :=
  if s.data = [] then some 0
  else if s.data.head? = some '-' then
    (if (s.data.drop 1) ≠ [] ∧ (s.data.drop 1).all isDigitChar
     then some (-(digitsVal (s.data.drop 1) : Int)) else none)
  else if s.data.all isDigitChar then some ((digitsVal s.data : Int)) else none

/-- The stored foreign key
`isNaN(Number(user_id)) ? String(user_id) : Number(user_id)` used by
`createAddress` and `createRiderCar` of the ID-allocator variant. -/
def storedUserId (user_id : String) : JsVal :=
  match jsNumber user_id with
  | some n => .num n
  | none => .str user_id

/-- Shallow embedding of `createAddress` of the ID-allocator variant
(src/functions/index.js:271-290): validates `user_id` and `address`
non-empty, allocates `address_seq`, and writes the address document — there
is no user-existence check in this function. -/
def createAddress (st : Store) (user_id address : String)
    (lat lng : Option Int) : Except Err CreatedAddr × Store :=
  if user_id = "" ∨ address = "" then
    (.error ⟨400, "user_id and address are required", none⟩, st)
  else
    let p := nextId st "address_seq"
    let addrId := toString p.1
    let payload : AddrDoc :=
      { address_id := p.1, user_id := storedUserId user_id, address := address,
        lat := lat, lng := lng }
    (.ok { id := addrId, doc := payload },
     { p.2 with addresses := upsert p.2.addresses addrId payload })

/-- The value `{ id, ...payload }` returned by a successful `createRiderCar`. -/
structure CreatedRider where
  id : String
  doc : RiderDoc
  deriving DecidableEq, Repr

/-- Shallow embedding of `createRiderCar` of the ID-allocator variant
(src/functions/index.js:292-311): validates `user_id`, `plate_number`,
`car_type` non-empty, allocates `rider_seq`, and writes the rider-car
document. -/
def createRiderCar (st : Store) (user_id : String) (image_car : Option String)
    (plate_number car_type : String) : Except Err CreatedRider × Store :=
  if user_id = "" ∨ plate_number = "" ∨ car_type = "" then
    (.error ⟨400, "user_id, plate_number, car_type are required", none⟩, st)
  else
    let p := nextId st "rider_seq"
    let riderId := toString p.1
    let payload : RiderDoc :=
      { rider_id := p.1, user_id := storedUserId user_id,
        image_car := match image_car with
          | some s => if s = "" then none else some s
          | none => none,
        plate_number := plate_number, car_type := car_type }
    (.ok { id := riderId, doc := payload },
     { p.2 with riderCars := upsert p.2.riderCars riderId payload })

/-- Shallow embedding of the `POST /register/user` route of the
ID-allocator variant (src/functions/index.js:316-328): calls `createUser`
with role 0 and answers 201 on success, `e.code` on failure (every error
the helpers throw carries a nonzero code, so `e.code || 400` is `e.code`). -/
def registerUser (st : Store) (name phone password : String)
    (picture : Option String) : Nat × Except Err CreatedUser × Store :=
  match createUser st name password phone picture (some 0) with
  | (.error e, st1) => (e.code, .error e, st1)
  | (.ok user, st1) => (201, .ok user, st1)

/-- Shallow embedding of the `POST /register/rider` route of the
ID-allocator variant (src/functions/index.js:330-353): creates the user
with role 1, then the rider car referencing `user.id`; answers 201 with
both on success, `e.code` on failure. No compensating delete runs when the
second step fails. -/
def registerRider (st : Store) (name phone password : String)
    (picture image_car : Option String) (plate_number car_type : String) :
    Nat × Except Err (CreatedUser × CreatedRider) × Store :=
  match createUser st name password phone picture (some 1) with
  | (.error e, st1) => (e.code, .error e, st1)
  | (.ok user, st1) =>
    match createRiderCar st1 user.id image_car plate_number car_type with
    | (.error e, st2) => (e.code, .error e, st2)
    | (.ok rc, st2) => (201, .ok (user, rc), st2)

/-- An HTTP response with a flat JSON object body, as produced by the
`/login` route. -/
structure HttpResp where
  status : Nat
  body : List (String × JsVal)
  deriving DecidableEq, Repr

/-- Shallow embedding of `POST /login` of the ID-allocator variant
(src/functions/index.js:428-449): requires both fields truthy, looks up the
first user with the phone, answers 401 when absent or when the password
differs, otherwise 200 with exactly `{ id, name, phone, role }`. The
`part_000` variant (lines 274-294) is the same route except that it returns
`u.role` without the `Number` coercion, which is the identity here because
roles are stored as numbers. -/
def login (st : Store) (phone password : Option String) : HttpResp :=
  if phone.getD "" = "" ∨ password.getD "" = "" then
    { status := 400, body := [("error", .str "phone and password are required")] }
  else
    match st.users.find? (fun p => p.2.phone == phone.getD "") with
    | none => { status := 401, body := [("error", .str "invalid credentials")] }
    | some d =>
      if d.2.password ≠ password.getD "" then
        { status := 401, body := [("error", .str "invalid credentials")] }
      else
        { status := 200,
          body := [("id", .str d.1), ("name", .str d.2.name),
                   ("phone", .str d.2.phone), ("role", .num d.2.role)] }

/-- A document of the `user` collection in the `part_000` variant: the
object passed to `db.collection(USER_COL).add` in its `createUser`. There
is no `user_id` field; the document key is store-generated. -/
structure UserDoc0 where
  name : String
  password : String
  phone : String
  picture : Option String
  role : Int
  deriving DecidableEq, Repr

/-- A document of the `user_address` collection in the `part_000` variant:
the `payload` object of its `createAddress`. The foreign key is stored as
`String(user_id)`. -/
structure AddrDoc0 where
  user_id : String
  address : String
  lat : Option Int
  lng : Option Int
  deriving DecidableEq, Repr

/-- The Firestore state of the `part_000` variant, restricted to the
collections its claims touch. `nextKey` models Firestore's fresh-key
generator backing `collection.add`. -/
structure P0Store where
  users : List (String × UserDoc0)
  addresses : List (String × AddrDoc0)
  nextKey : Nat
  deriving DecidableEq, Repr

namespace P0

/-- Firestore's `add` generates a fresh document key; modelled with the
`nextKey` counter of the store. -/
def genKey (st : P0Store) : String × P0Store :=
  ("gen" ++ toString st.nextKey, { st with nextKey := st.nextKey + 1 })

/-- Shallow embedding of `assertPhoneNotDuplicate` of the `part_000`
variant (src/unnamed/part_000:27-40): the equality lookup limited to one
match, throwing code 409 with payload exactly
`{ id: owner.id, phone: u.phone, name: u.name }`. -/
def assertPhoneNotDuplicate (users : List (String × UserDoc0)) (phone : String) :
    Except Err Unit :=
  match users.find? (fun p => p.2.phone == phone) with
  | some owner =>
    .error ⟨409, "phone already exists",
      some [("id", .str owner.1), ("phone", .str owner.2.phone),
            ("name", .str owner.2.name)]⟩
  | none => .ok ()

/-- Shallow embedding of `createAddress` of the `part_000` variant
(src/unnamed/part_000:70-85): validates `user_id` and `address` non-empty
and adds the payload with a store-generated key. -/
def createAddress (st : P0Store) (user_id address : String)
    (lat lng : Option Int) : Except Err (String × AddrDoc0) × P0Store :=
  if user_id = "" ∨ address = "" then
    (.error ⟨400, "user_id and address are required", none⟩, st)
  else
    let payload : AddrDoc0 :=
      { user_id := user_id, address := address, lat := lat, lng := lng }
    let kp := genKey st
    (.ok (kp.1, payload),
     { kp.2 with addresses := upsert kp.2.addresses kp.1 payload })

/-- Shallow embedding of the `POST /users/:id/addresses` route of the
`part_000` variant (src/unnamed/part_000:168-181): fetches the user
document at key `String(req.params.id)` and answers 404 when it does not
exist, before any address is created; otherwise it delegates to
`createAddress` (a missing `address` body field is modelled as the empty
string: both are falsy in JS). -/
def postUserAddress (st : P0Store) (id : String) (address : Option String)
    (lat lng : Option Int) : Nat × P0Store :=
  match st.users.lookup id with
  | none => (404, st)
  | some _ =>
    match createAddress st id (address.getD "") lat lng with
    | (.ok _, st1) => (201, st1)
    | (.error e, st1) => (e.code, st1)

end P0

/-! Helper lemmas about the store primitives. -/

theorem lookup_upsert_self {α : Type} (l : List (String × α)) (k : String) (v : α) :
    (upsert l k v).lookup k = some v := by
  induction l with
  | nil => simp [upsert, List.lookup]
  | cons p rest ih =>
    obtain ⟨k', v'⟩ := p
    by_cases h : k' = k
    · simp [upsert, h, List.lookup]
    · simp [upsert, h, List.lookup, ih, beq_false_of_ne (Ne.symm h)]

theorem lookup_upsert_ne {α : Type} (l : List (String × α)) (k k' : String) (v : α)
    (h : k' ≠ k) : (upsert l k v).lookup k' = l.lookup k' := by
  induction l with
  | nil => simp [upsert, List.lookup, beq_false_of_ne h]
  | cons p rest ih =>
    obtain ⟨k0, v0⟩ := p
    by_cases h0 : k0 = k
    · subst h0
      simp [upsert, List.lookup, beq_false_of_ne h]
    · simp [upsert, h0, List.lookup, ih]

theorem nextId_fst (st : Store) (s : String) :
    (nextId st s).1 = counterVal st.counters s + 1 := by
  unfold nextId counterVal
  cases h : st.counters.lookup s <;> simp [h]

theorem counterVal_nextId_self (st : Store) (s : String) :
    counterVal (nextId st s).2.counters s = counterVal st.counters s + 1 := by
  unfold nextId counterVal
  cases h : st.counters.lookup s <;> simp [h, lookup_upsert_self]

theorem counterVal_nextId_other (st : Store) (s other : String) (h : other ≠ s) :
    counterVal (nextId st s).2.counters other = counterVal st.counters other := by
  unfold nextId counterVal
  cases h' : st.counters.lookup s <;> simp [h', lookup_upsert_ne _ _ _ _ h]

theorem counterVal_nextId_mono (st : Store) (s other : String) :
    counterVal st.counters other ≤ counterVal (nextId st s).2.counters other := by
  by_cases h : other = s
  · subst h
    rw [counterVal_nextId_self]
    omega
  · rw [counterVal_nextId_other st s other h]

theorem createUser_counters (st : Store) (name password phone : String)
    (picture : Option String) (role : Option Int) :
    (createUser st name password phone picture role).2.counters = st.counters ∨
    (createUser st name password phone picture role).2.counters =
      (nextId st "user_seq").2.counters := by
  unfold createUser
  split
  · exact Or.inl rfl
  · split
    · exact Or.inl rfl
    · split
      · exact Or.inl rfl
      · exact Or.inr rfl

theorem createAddress_counters (st : Store) (user_id address : String)
    (lat lng : Option Int) :
    (createAddress st user_id address lat lng).2.counters = st.counters ∨
    (createAddress st user_id address lat lng).2.counters =
      (nextId st "address_seq").2.counters := by
  unfold createAddress
  split
  · exact Or.inl rfl
  · exact Or.inr rfl

theorem createRiderCar_counters (st : Store) (user_id : String)
    (image_car : Option String) (plate_number car_type : String) :
    (createRiderCar st user_id image_car plate_number car_type).2.counters = st.counters ∨
    (createRiderCar st user_id image_car plate_number car_type).2.counters =
      (nextId st "rider_seq").2.counters := by
  unfold createRiderCar
  split
  · exact Or.inl rfl
  · exact Or.inr rfl

/-- C1: a successful call to the allocator `nextId s` runs the counter
transaction: it reads the counter record for `s` (treating an absent record
as current value 0), computes next = current + 1, writes next back into the
counter record (creating it when it did not exist) and returns next; no
other collection is touched. -/
theorem nextId_allocates (st : Store) (s : String) :
    (nextId st s).1 = counterVal st.counters s + 1 ∧
    ((nextId st s).2).counters.lookup s = some (counterVal st.counters s + 1) ∧
    (st.counters.lookup s = none → (nextId st s).1 = 1) ∧
    ((nextId st s).2).users = st.users ∧
    ((nextId st s).2).addresses = st.addresses ∧
    ((nextId st s).2).riderCars = st.riderCars := by
  refine ⟨nextId_fst st s, ?_, ?_, rfl, rfl, rfl⟩
  · have h := counterVal_nextId_self st s
    unfold nextId at h ⊢
    cases h' : st.counters.lookup s <;>
      simp [h', lookup_upsert_self, counterVal] at h ⊢
  · intro h
    rw [nextId_fst, counterVal, h]
    rfl

theorem nextId_allocates_witness :
    ((⟨[], [], [], []⟩ : Store).counters.lookup "user_seq" = none) ∧
    (nextId ⟨[], [], [], []⟩ "user_seq").1 = 1 :=
  ⟨rfl, (nextId_allocates ⟨[], [], [], []⟩ "user_seq").2.2.1 rfl⟩

/-- C2: the stored counter value is a natural number (hence a non-negative
integer), every successful `nextId` allocation increases it by exactly 1,
and the value is monotonically non-decreasing across all store operations
of the variant (`nextId` itself and the three entity creators, which only
touch counters through `nextId`). -/
theorem counter_invariant :
    (∀ st s, counterVal (nextId st s).2.counters s = counterVal st.counters s + 1) ∧
    (∀ st s, (0 : Int) ≤ (counterVal (nextId st s).2.counters s : Int)) ∧
    (∀ st s other,
       counterVal st.counters other ≤ counterVal (nextId st s).2.counters other) ∧
    (∀ st name password phone picture role other,
       counterVal st.counters other ≤
         counterVal (createUser st name password phone picture role).2.counters other) ∧
    (∀ st user_id address lat lng other,
       counterVal st.counters other ≤
         counterVal (createAddress st user_id address lat lng).2.counters other) ∧
    (∀ st user_id image_car plate_number car_type other,
       counterVal st.counters other ≤
         counterVal (createRiderCar st user_id image_car plate_number car_type).2.counters other) := by
  refine ⟨counterVal_nextId_self, fun st s => Int.ofNat_nonneg _, counterVal_nextId_mono,
    ?_, ?_, ?_⟩
  · intro st name password phone picture role other
    rcases createUser_counters st name password phone picture role with h | h <;> rw [h]
    exact counterVal_nextId_mono st "user_seq" other
  · intro st user_id address lat lng other
    rcases createAddress_counters st user_id address lat lng with h | h <;> rw [h]
    exact counterVal_nextId_mono st "address_seq" other
  · intro st user_id image_car plate_number car_type other
    rcases createRiderCar_counters st user_id image_car plate_number car_type with h | h <;> rw [h]
    exact counterVal_nextId_mono st "rider_seq" other

theorem allocateMany_values (seq : String) :
    ∀ (n : Nat) (st : Store),
      (allocateMany seq n st).1 = List.range' (counterVal st.counters seq + 1) n := by
  intro n
  induction n with
  | zero => intro st; rfl
  | succ k ih =>
    intro st
    have h1 : (allocateMany seq (k + 1) st).1 =
        (nextId st seq).1 :: (allocateMany seq k (nextId st seq).2).1 := rfl
    rw [h1, ih, nextId_fst, counterVal_nextId_self, List.range'_succ]

/-- C3: N calls to the allocator for the same sequence name yield N
pairwise-distinct integers (the consecutive values current+1 … current+N),
and the N observed current values (value − 1 each) are also pairwise
distinct, so no value is issued twice and no two callers observe the same
current. Concurrency is modelled by the serializability of the store's
transactions: any concurrent execution of the N identical `nextId`
transactions is equivalent to the serial composition `allocateMany`. -/
theorem allocate_concurrent_distinct (st : Store) (seq : String) (n : Nat) :
    (allocateMany seq n st).1 = List.range' (counterVal st.counters seq + 1) n ∧
    (allocateMany seq n st).1.Nodup ∧
    ((allocateMany seq n st).1.map (fun v => v - 1)).Nodup := by
  refine ⟨allocateMany_values seq n st, ?_, ?_⟩
  · rw [allocateMany_values]
    exact List.nodup_range' _ _
  · rw [allocateMany_values]
    refine List.Nodup.map_on ?_ (List.nodup_range' _ _)
    intro x hx y hy hxy
    rw [List.mem_range'] at hx hy
    omega

/-! Decimal representation facts: the ids the allocator produces
(`String(idNum)`) are decimal digit strings and `jsNumber` recovers the
allocated number from them. -/

theorem digitChar_spec (m : Nat) (h : m < 10) :
    isDigitChar (Nat.digitChar m) = true ∧ (Nat.digitChar m).toNat - 48 = m := by
  interval_cases m <;> exact ⟨by decide, by decide⟩

theorem toDigitsCore_spec :
    ∀ (fuel n : Nat) (ds : List Char), n < fuel →
      ∃ l, Nat.toDigitsCore 10 fuel n ds = l ++ ds ∧ l ≠ [] ∧
        l.all isDigitChar = true ∧
        ∀ a : Nat, l.foldl (fun a c => a * 10 + (c.toNat - 48)) a =
          a * 10 ^ l.length + n := by
  intro fuel
  induction fuel with
  | zero => intro n ds h; omega
  | succ fuel ih =>
    intro n ds h
    by_cases h10 : n / 10 = 0
    · have hn : n < 10 := by omega
      have hd := digitChar_spec (n % 10) (Nat.mod_lt n (by norm_num))
      rw [Nat.mod_eq_of_lt hn] at hd
      refine ⟨[Nat.digitChar n], ?_, by simp, ?_, ?_⟩
      · show Nat.toDigitsCore 10 (fuel + 1) n ds = _
        unfold Nat.toDigitsCore
        simp [h10, Nat.mod_eq_of_lt hn]
      · simp [hd.1]
      · intro a
        simp [List.foldl, hd.2]
    · have hrec : n / 10 < fuel := by omega
      obtain ⟨l', hl', hne', hall', hfold'⟩ :=
        ih (n / 10) (Nat.digitChar (n % 10) :: ds) hrec
      have hd := digitChar_spec (n % 10) (Nat.mod_lt n (by omega))
      refine ⟨l' ++ [Nat.digitChar (n % 10)], ?_, by simp, ?_, ?_⟩
      · show Nat.toDigitsCore 10 (fuel + 1) n ds = _
        unfold Nat.toDigitsCore
        simp only [h10, if_false]
        rw [hl']
        simp
      · simp [List.all_append, hall', hd.1]
      · intro a
        rw [List.foldl_append]
        simp [List.foldl, hfold', hd.2, List.length_append]
        ring_nf
        omega

theorem toDigits_spec (n : Nat) :
    Nat.toDigits 10 n ≠ [] ∧ (Nat.toDigits 10 n).all isDigitChar = true ∧
    digitsVal (Nat.toDigits 10 n) = n := by
  obtain ⟨l, hl, hne, hall, hfold⟩ :=
    toDigitsCore_spec (n + 1) n [] (Nat.lt_succ_self n)
  unfold Nat.toDigits
  rw [hl, List.append_nil]
  refine ⟨hne, hall, ?_⟩
  unfold digitsVal
  rw [hfold 0]
  simp

theorem jsNumber_toString (n : Nat) : jsNumber (toString n) = some (n : Int) := by
  have hdata : (toString n).data = Nat.toDigits 10 n := rfl
  obtain ⟨hne, hall, hval⟩ := toDigits_spec n
  unfold jsNumber
  rw [hdata, if_neg hne]
  have hhead : ¬ ((Nat.toDigits 10 n).head? = some '-') := by
    intro hcon
    cases hl : Nat.toDigits 10 n with
    | nil => exact hne hl
    | cons c rest =>
      rw [hl] at hcon hall
      simp [List.head?] at hcon
      rw [List.all_cons] at hall
      have hc : isDigitChar c = true := by
        cases Bool.and_eq_true_iff.1 hall with
        | intro h1 h2 => exact h1
      rw [hcon] at hc
      exact absurd hc (by decide)
  rw [if_neg hhead, if_pos hall, hval]

theorem createUser_ok (st : Store) (name password phone : String)
    (picture : Option String) (role : Option Int)
    (h1 : name ≠ "") (h2 : password ≠ "") (h3 : phone ≠ "")
    (hr : role.getD 0 = 0 ∨ role.getD 0 = 1)
    (hd : st.users.find? (fun p => p.2.phone == phone) = none) :
    ∃ u st', createUser st name password phone picture role = (.ok u, st') ∧
      u.id = toString (nextId st "user_seq").1 ∧
      u.doc.user_id = (nextId st "user_seq").1 ∧
      u.doc.name = name ∧ u.doc.password = password ∧ u.doc.phone = phone ∧
      u.doc.role = role.getD 0 ∧
      st'.users = upsert (nextId st "user_seq").2.users u.id u.doc ∧
      st'.users.lookup u.id = some u.doc ∧
      st'.counters = (nextId st "user_seq").2.counters := by
  have hval : ¬ (name = "" ∨ password = "" ∨ phone = "") := by tauto
  have hrole : normalizeRoleInt role = .ok (role.getD 0) := by
    unfold normalizeRoleInt
    rcases hr with h | h <;> simp [h]
  have hguard : assertPhoneNotDuplicate st.users phone = .ok () := by
    unfold assertPhoneNotDuplicate
    rw [hd]
  unfold createUser
  rw [if_neg hval, hrole, hguard]
  exact ⟨_, _, rfl, rfl, rfl, rfl, rfl, rfl, rfl, rfl,
    lookup_upsert_self _ _ _, rfl⟩

/-- C5: `createUser` fails with InvalidArgument (code 400) when `name`,
`password` or `phone` is empty or missing, and when a role is supplied
whose numeric value is neither 0 nor 1; in both failing cases the store is
returned unchanged (no write happens, and in particular no counter is
consumed, because validation precedes `nextId`); when the role is absent
the created user has role 0. -/
theorem createUser_validation :
    (∀ st name password phone picture role,
       name = "" ∨ password = "" ∨ phone = "" →
       createUser st name password phone picture role =
         (.error ⟨400, "name, password, phone are required", none⟩, st)) ∧
    (∀ st name password phone picture (r : Int),
       name ≠ "" → password ≠ "" → phone ≠ "" → r ≠ 0 → r ≠ 1 →
       createUser st name password phone picture (some r) =
         (.error ⟨400, "role must be 0 or 1", none⟩, st)) ∧
    (∀ st name password phone picture u st',
       createUser st name password phone picture none = (.ok u, st') →
       u.doc.role = 0) := by
  refine ⟨?_, ?_, ?_⟩
  · intro st name password phone picture role h
    unfold createUser
    rw [if_pos h]
  · intro st name password phone picture r h1 h2 h3 h4 h5
    have hval : ¬ (name = "" ∨ password = "" ∨ phone = "") := by tauto
    have hrole : normalizeRoleInt (some r) =
        .error ⟨400, "role must be 0 or 1", none⟩ := by
      unfold normalizeRoleInt
      simp [h4, h5]
    unfold createUser
    rw [if_neg hval, hrole]
  · intro st name password phone picture u st' h
    unfold createUser at h
    by_cases hval : name = "" ∨ password = "" ∨ phone = ""
    · rw [if_pos hval] at h
      simp at h
    · rw [if_neg hval] at h
      have hrole : normalizeRoleInt none = .ok 0 := rfl
      rw [hrole] at h
      cases hguard : assertPhoneNotDuplicate st.users phone with
      | error e =>
        rw [hguard] at h
        simp at h
      | ok v =>
        rw [hguard] at h
        rw [Prod.mk.injEq] at h
        obtain ⟨hu, _⟩ := h
        injection hu with hu'
        rw [← hu']

theorem createUser_validation_witness :
    (createUser ⟨[], [], [], []⟩ "" "x" "1" none none =
      (.error ⟨400, "name, password, phone are required", none⟩, ⟨[], [], [], []⟩)) ∧
    (createUser ⟨[], [], [], []⟩ "A" "x" "1" none (some 2) =
      (.error ⟨400, "role must be 0 or 1", none⟩, ⟨[], [], [], []⟩)) ∧
    (({ id := "1",
        doc := { user_id := 1, name := "A", password := "x", phone := "1",
                 picture := none, role := 0 } } : CreatedUser).doc.role = 0) :=
  ⟨createUser_validation.1 ⟨[], [], [], []⟩ "" "x" "1" none none (Or.inl rfl),
   createUser_validation.2.1 ⟨[], [], [], []⟩ "A" "x" "1" none 2
     (by decide) (by decide) (by decide) (by decide) (by decide),
   createUser_validation.2.2 ⟨[], [], [], []⟩ "A" "x" "1" none _ _ rfl⟩

/-- C4 counterexample: in the ID-allocator variant, after `createUser`
succeeds with phone "0800000001", a second `createUser` with the same phone
fails with Conflict (409) — but its payload spreads the whole stored record
(`{ id, ...d.data() }`), so besides id, name and phone it also carries the
user_id, password, picture and role fields; in particular the key
"password" occurs, so the payload does not carry exactly id, name and
phone. -/
theorem phone_conflict_payload_cex :
    (createUser (createUser ⟨[], [], [], []⟩ "A" "x" "0800000001" none none).2
        "B" "y" "0800000001" none none).1 =
      .error ⟨409, "phone already exists",
        some [("id", .str "1"), ("user_id", .num 1), ("name", .str "A"),
              ("password", .str "x"), ("phone", .str "0800000001"),
              ("picture", .null), ("role", .num 0)]⟩ ∧
    ("password" ∈ ([("id", JsVal.str "1"), ("user_id", JsVal.num 1),
        ("name", JsVal.str "A"), ("password", JsVal.str "x"),
        ("phone", JsVal.str "0800000001"), ("picture", JsVal.null),
        ("role", JsVal.num 0)].map Prod.fst)) ∧
    ¬ ("password" ∈ (["id", "name", "phone"] : List String)) :=
  ⟨rfl, by decide, by decide⟩

/-- C4 (amended): when a user with the phone already exists, a `createUser`
call with the same phone fails with Conflict (409) whose payload carries
the existing record's id, name and phone (in the ID-allocator variant the
payload spreads the entire stored record, so it carries the remaining
stored fields as well; the `part_000` variant's guard carries exactly id,
phone and name); the store is unchanged, and the first call with a fresh
phone succeeds with status 201. -/
theorem phone_conflict :
    (∀ st name password phone picture role d,
       name ≠ "" → password ≠ "" → phone ≠ "" →
       (role.getD 0 = 0 ∨ role.getD 0 = 1) →
       st.users.find? (fun p => p.2.phone == phone) = some d →
       createUser st name password phone picture role =
         (.error ⟨409, "phone already exists",
            some (("id", .str d.1) :: userDocFields d.2)⟩, st) ∧
       ("id", JsVal.str d.1) ∈ ("id", JsVal.str d.1) :: userDocFields d.2 ∧
       ("name", JsVal.str d.2.name) ∈ ("id", JsVal.str d.1) :: userDocFields d.2 ∧
       ("phone", JsVal.str d.2.phone) ∈ ("id", JsVal.str d.1) :: userDocFields d.2) ∧
    (∀ (users : List (String × UserDoc0)) (phone : String) d,
       users.find? (fun p => p.2.phone == phone) = some d →
       P0.assertPhoneNotDuplicate users phone =
         .error ⟨409, "phone already exists",
           some [("id", .str d.1), ("phone", .str d.2.phone),
                 ("name", .str d.2.name)]⟩) ∧
    (∀ st name phone password picture,
       name ≠ "" → password ≠ "" → phone ≠ "" →
       st.users.find? (fun p => p.2.phone == phone) = none →
       (registerUser st name phone password picture).1 = 201) := by
  refine ⟨?_, ?_, ?_⟩
  · intro st name password phone picture role d h1 h2 h3 hr hd
    have hval : ¬ (name = "" ∨ password = "" ∨ phone = "") := by tauto
    have hrole : normalizeRoleInt role = .ok (role.getD 0) := by
      unfold normalizeRoleInt
      rcases hr with h | h <;> simp [h]
    have hguard : assertPhoneNotDuplicate st.users phone =
        .error ⟨409, "phone already exists",
          some (("id", .str d.1) :: userDocFields d.2)⟩ := by
      unfold assertPhoneNotDuplicate
      rw [hd]
    refine ⟨?_, by simp, by simp [userDocFields], by simp [userDocFields]⟩
    unfold createUser
    rw [if_neg hval, hrole, hguard]
  · intro users phone d hd
    unfold P0.assertPhoneNotDuplicate
    rw [hd]
  · intro st name phone password picture h1 h2 h3 hd
    obtain ⟨u, st', hcu, -⟩ :=
      createUser_ok st name password phone picture (some 0) h1 h2 h3
        (Or.inl rfl) hd
    unfold registerUser
    rw [hcu]

theorem phone_conflict_witness :
    (createUser
        ⟨[("user_seq", 1)],
         [("1", { user_id := 1, name := "A", password := "x",
                  phone := "0800000001", picture := none, role := 0 })],
         [], []⟩
        "B" "y" "0800000001" none none =
      (.error ⟨409, "phone already exists",
         some (("id", .str "1") ::
           userDocFields { user_id := 1, name := "A", password := "x",
                           phone := "0800000001", picture := none, role := 0 })⟩,
       ⟨[("user_seq", 1)],
        [("1", { user_id := 1, name := "A", password := "x",
                 phone := "0800000001", picture := none, role := 0 })],
        [], []⟩)) ∧
    (P0.assertPhoneNotDuplicate
        [("k7", { name := "N", password := "pw", phone := "0811", picture := none,
                  role := 0 })] "0811" =
      .error ⟨409, "phone already exists",
        some [("id", .str "k7"), ("phone", .str "0811"), ("name", .str "N")]⟩) ∧
    ((registerUser ⟨[], [], [], []⟩ "A" "0800000001" "x" none).1 = 201) :=
  ⟨(phone_conflict.1
      ⟨[("user_seq", 1)],
       [("1", { user_id := 1, name := "A", password := "x",
                phone := "0800000001", picture := none, role := 0 })],
       [], []⟩
      "B" "y" "0800000001" none none
      ("1", { user_id := 1, name := "A", password := "x",
              phone := "0800000001", picture := none, role := 0 })
      (by decide) (by decide) (by decide) (Or.inl rfl) rfl).1,
   phone_conflict.2.1
     [("k7", { name := "N", password := "pw", phone := "0811", picture := none,
               role := 0 })] "0811"
     ("k7", { name := "N", password := "pw", phone := "0811", picture := none,
              role := 0 }) rfl,
   phone_conflict.2.2 ⟨[], [], [], []⟩ "A" "0800000001" "x" none
     (by decide) (by decide) (by decide) rfl⟩

/-- C6 counterexample: the ID-allocator variant's `createAddress` (the
function itself) performs no user-existence check: on a store that contains
no user at all, `createAddress` with user_id "nonexistent" succeeds and
persists the address record instead of failing with NotFound. -/
theorem createAddress_no_user_check_cex :
    ((⟨[], [], [], []⟩ : Store).users.lookup "nonexistent" = none) ∧
    (createAddress ⟨[], [], [], []⟩ "nonexistent" "x" none none).1 =
      .ok { id := "1",
            doc := { address_id := 1, user_id := .str "nonexistent",
                     address := "x", lat := none, lng := none } } ∧
    (createAddress ⟨[], [], [], []⟩ "nonexistent" "x" none none).2.addresses =
      [("1", { address_id := 1, user_id := .str "nonexistent", address := "x",
               lat := none, lng := none })] :=
  ⟨rfl, rfl, rfl⟩

/-- C6 (amended): the user-existence check lives in the route handlers, not
in the ID-allocator variant's `createAddress`: the `part_000` route
POST /users/:id/addresses fails with NotFound (404) and creates nothing
when the referenced user does not exist, while the ID-allocator variant's
`createAddress` function performs no user-existence check — with non-empty
user_id and address it always succeeds and persists the address record,
whether or not the user exists. -/
theorem createAddress_user_check :
    (∀ st id address lat lng, st.users.lookup id = none →
       P0.postUserAddress st id address lat lng = (404, st)) ∧
    (∀ st user_id address lat lng, user_id ≠ "" → address ≠ "" →
       ∃ d, (createAddress st user_id address lat lng).1 = .ok d ∧
         (createAddress st user_id address lat lng).2.addresses.lookup d.id =
           some d.doc) := by
  constructor
  · intro st id address lat lng h
    unfold P0.postUserAddress
    rw [h]
  · intro st user_id address lat lng h1 h2
    have hval : ¬ (user_id = "" ∨ address = "") := by tauto
    unfold createAddress
    rw [if_neg hval]
    exact ⟨_, rfl, lookup_upsert_self _ _ _⟩

theorem createAddress_user_check_witness :
    (P0.postUserAddress ⟨[], [], 0⟩ "nonexistent" (some "x") none none =
      (404, ⟨[], [], 0⟩)) ∧
    (∃ d, (createAddress ⟨[], [], [], []⟩ "nonexistent" "x" none none).1 = .ok d ∧
       (createAddress ⟨[], [], [], []⟩ "nonexistent" "x" none none).2.addresses.lookup d.id =
         some d.doc) :=
  ⟨createAddress_user_check.1 ⟨[], [], 0⟩ "nonexistent" (some "x") none none rfl,
   createAddress_user_check.2 ⟨[], [], [], []⟩ "nonexistent" "x" none none
     (by decide) (by decide)⟩

/-- C7: login with a phone/password pair matching a stored user answers 200
with a body holding exactly the user's id, name, phone and role; no login
response body ever contains a password field; and login with a phone whose
first matching user has a different password answers 401 invalid
credentials. -/
theorem login_spec :
    (∀ st phone password d,
       phone ≠ "" → password ≠ "" →
       st.users.find? (fun p => p.2.phone == phone) = some d →
       d.2.password = password →
       login st (some phone) (some password) =
         { status := 200,
           body := [("id", .str d.1), ("name", .str d.2.name),
                    ("phone", .str d.2.phone), ("role", .num d.2.role)] }) ∧
    (∀ st phone password,
       "password" ∉ (login st phone password).body.map Prod.fst) ∧
    (∀ st phone password d,
       phone ≠ "" → password ≠ "" →
       st.users.find? (fun p => p.2.phone == phone) = some d →
       d.2.password ≠ password →
       login st (some phone) (some password) =
         { status := 401, body := [("error", .str "invalid credentials")] }) := by
  refine ⟨?_, ?_, ?_⟩
  · intro st phone password d h1 h2 hfind hpw
    unfold login
    rw [if_neg (by simp [h1, h2])]
    simp only [Option.getD_some]
    rw [hfind]
    simp [hpw]
  · intro st phone password
    unfold login
    by_cases h : phone.getD "" = "" ∨ password.getD "" = ""
    · rw [if_pos h]
      simp
    · rw [if_neg h]
      cases hfind : st.users.find? (fun p => p.2.phone == phone.getD "") with
      | none => simp
      | some d =>
        by_cases hpw : d.2.password ≠ password.getD ""
        · simp [hpw]
        · simp [hpw]
  · intro st phone password d h1 h2 hfind hpw
    unfold login
    rw [if_neg (by simp [h1, h2])]
    simp only [Option.getD_some]
    rw [hfind]
    simp [hpw]

theorem login_spec_witness :
    (login ⟨[], [("1", { user_id := 1, name := "N", password := "pw",
                         phone := "0811", picture := none, role := 0 })], [], []⟩
        (some "0811") (some "pw") =
      { status := 200,
        body := [("id", .str "1"), ("name", .str "N"),
                 ("phone", .str "0811"), ("role", .num 0)] }) ∧
    ("password" ∉ (login ⟨[], [], [], []⟩ (some "0811") (some "pw")).body.map Prod.fst) ∧
    (login ⟨[], [("1", { user_id := 1, name := "N", password := "pw",
                         phone := "0811", picture := none, role := 0 })], [], []⟩
        (some "0811") (some "bad") =
      { status := 401, body := [("error", .str "invalid credentials")] }) :=
  ⟨login_spec.1
     ⟨[], [("1", { user_id := 1, name := "N", password := "pw",
                   phone := "0811", picture := none, role := 0 })], [], []⟩
     "0811" "pw"
     ("1", { user_id := 1, name := "N", password := "pw", phone := "0811",
             picture := none, role := 0 })
     (by decide) (by decide) rfl rfl,
   login_spec.2.1 ⟨[], [], [], []⟩ (some "0811") (some "pw"),
   login_spec.2.2
     ⟨[], [("1", { user_id := 1, name := "N", password := "pw",
                   phone := "0811", picture := none, role := 0 })], [], []⟩
     "0811" "bad"
     ("1", { user_id := 1, name := "N", password := "pw", phone := "0811",
             picture := none, role := 0 })
     (by decide) (by decide) rfl (by decide)⟩

/-- C8: in the composite registerRider flow, when rider-car creation fails
after user creation succeeded (here: an empty/missing plate_number), the
route answers the failed step's 400 error but the already-created User
record with role 1 remains in the returned store — there is no compensating
rollback. -/
theorem registerRider_no_rollback (st : Store) (name phone password : String)
    (picture image_car : Option String) (car_type : String)
    (h1 : name ≠ "") (h2 : password ≠ "") (h3 : phone ≠ "")
    (hd : st.users.find? (fun p => p.2.phone == phone) = none) :
    (registerRider st name phone password picture image_car "" car_type).1 = 400 ∧
    ∃ id doc,
      (registerRider st name phone password picture image_car "" car_type).2.2.users.lookup id =
        some doc ∧ doc.role = 1 ∧ doc.name = name ∧ doc.phone = phone := by
  obtain ⟨u, st', hcu, hid, huid, hname, hpassword, hphone, hrole, husers, hlookup, hctr⟩ :=
    createUser_ok st name password phone picture (some 1) h1 h2 h3 (Or.inr rfl) hd
  have hfail : createRiderCar st' u.id image_car "" car_type =
      (.error ⟨400, "user_id, plate_number, car_type are required", none⟩, st') := by
    unfold createRiderCar
    rw [if_pos (Or.inr (Or.inl rfl))]
  unfold registerRider
  rw [hcu]
  simp only [hfail]
  exact ⟨trivial, u.id, u.doc, hlookup, hrole, hname, hphone⟩

theorem registerRider_no_rollback_witness :
    (registerRider ⟨[], [], [], []⟩ "R" "0812" "pw" none none "" "car").1 = 400 ∧
    ∃ id doc,
      (registerRider ⟨[], [], [], []⟩ "R" "0812" "pw" none none "" "car").2.2.users.lookup id =
        some doc ∧ doc.role = 1 ∧ doc.name = "R" ∧ doc.phone = "0812" :=
  registerRider_no_rollback ⟨[], [], [], []⟩ "R" "0812" "pw" none none "car"
    (by decide) (by decide) (by decide) rfl

theorem allocateAttempts_all_abort :
    ∀ (fuel : Nat) (commits : Nat → Bool) (i : Nat) (st : Store) (seq : String),
      (∀ k, i ≤ k → k < i + fuel → commits k = false) →
      allocateAttempts fuel commits i st seq =
        .error ⟨503, "StoreUnavailable", none⟩ := by
  intro fuel
  induction fuel with
  | zero => intro commits i st seq h; rfl
  | succ f ih =>
    intro commits i st seq h
    have hci : ¬ (commits i = true) := by
      rw [h i (Nat.le_refl i) (by omega)]
      simp
    unfold allocateAttempts
    rw [if_neg hci]
    exact ih commits (i + 1) st seq (fun k hk1 hk2 => h k (by omega) (by omega))

theorem allocateAttempts_commit :
    ∀ (fuel : Nat) (commits : Nat → Bool) (i : Nat) (st : Store) (seq : String)
      (j : Nat), i ≤ j → j < i + fuel → commits j = true →
      (∀ k, i ≤ k → k < j → commits k = false) →
      allocateAttempts fuel commits i st seq = .ok (nextId st seq) := by
  intro fuel
  induction fuel with
  | zero => intro commits i st seq j h1 h2 h3 h4; omega
  | succ f ih =>
    intro commits i st seq j h1 h2 h3 h4
    by_cases hci : commits i = true
    · unfold allocateAttempts
      rw [if_pos hci]
    · have hij : i < j := by
        rcases Nat.lt_or_ge i j with h | h
        · exact h
        · have hieq : i = j := by omega
          rw [hieq] at hci
          exact absurd h3 hci
      unfold allocateAttempts
      rw [if_neg hci]
      exact ih commits (i + 1) st seq j (by omega) (by omega) h3
        (fun k hk1 hk2 => h4 k (by omega) hk2)

/-- C9 (modelled from the spec: the retry loop around the transaction body
lives in the Firestore client's `runTransaction`, not in code under src/):
when the store transaction aborts the allocator retries within a bounded
attempt budget; if every attempt within the budget aborts, the allocator
fails with the terminal StoreUnavailable error, while if some attempt
within the budget commits (all earlier ones having aborted) the allocator
returns the `nextId` allocation. -/
theorem allocator_bounded_retry :
    (∀ (budget : Nat) (commits : Nat → Bool) (st : Store) (seq : String),
       (∀ i, i < budget → commits i = false) →
       allocateWithRetry budget commits st seq =
         .error ⟨503, "StoreUnavailable", none⟩) ∧
    (∀ (budget : Nat) (commits : Nat → Bool) (st : Store) (seq : String)
       (j : Nat), j < budget → commits j = true →
       (∀ i, i < j → commits i = false) →
       allocateWithRetry budget commits st seq = .ok (nextId st seq)) := by
  constructor
  · intro budget commits st seq h
    exact allocateAttempts_all_abort budget commits 0 st seq
      (fun k hk1 hk2 => h k (by omega))
  · intro budget commits st seq j hj hcj hprev
    exact allocateAttempts_commit budget commits 0 st seq j (Nat.zero_le j)
      (by omega) hcj (fun k hk1 hk2 => hprev k hk2)

theorem allocator_bounded_retry_witness :
    (allocateWithRetry 5 (fun _ => false) ⟨[], [], [], []⟩ "user_seq" =
      .error ⟨503, "StoreUnavailable", none⟩) ∧
    (allocateWithRetry 5 (fun i => i == 2) ⟨[], [], [], []⟩ "user_seq" =
      .ok (nextId ⟨[], [], [], []⟩ "user_seq")) :=
  ⟨allocator_bounded_retry.1 5 (fun _ => false) ⟨[], [], [], []⟩ "user_seq"
     (fun _ _ => rfl),
   allocator_bounded_retry.2 5 (fun i => i == 2) ⟨[], [], [], []⟩ "user_seq" 2
     (by omega) rfl (fun i hi => by interval_cases i <;> rfl)⟩

/-- C10: in the ID-allocator variant the stored foreign key user_id is the
number `Number(user_id)` whenever user_id is a numeric string and the
string `String(user_id)` otherwise (the NaN case); `createAddress` and
`createRiderCar` both store it that way; and every id a successful
`createUser` returns is the decimal string of the allocated integer — a
numeric string — so the foreign key stored for it is a number while the
referenced user document's key is that very string, a value of a different
type. -/
theorem foreignKey_numeric_mismatch :
    (∀ user_id n, jsNumber user_id = some n → storedUserId user_id = .num n) ∧
    (∀ user_id, jsNumber user_id = none → storedUserId user_id = .str user_id) ∧
    (∀ st user_id address lat lng, user_id ≠ "" → address ≠ "" →
       ∃ d, (createAddress st user_id address lat lng).1 = .ok d ∧
         d.doc.user_id = storedUserId user_id) ∧
    (∀ st user_id image_car plate_number car_type,
       user_id ≠ "" → plate_number ≠ "" → car_type ≠ "" →
       ∃ d, (createRiderCar st user_id image_car plate_number car_type).1 = .ok d ∧
         d.doc.user_id = storedUserId user_id) ∧
    (∀ st name password phone picture role u st',
       createUser st name password phone picture role = (.ok u, st') →
       u.id = toString u.doc.user_id ∧
       jsNumber u.id = some (u.doc.user_id : Int) ∧
       storedUserId u.id = .num (u.doc.user_id : Int) ∧
       ∀ s, JsVal.num (u.doc.user_id : Int) ≠ JsVal.str s) := by
  have hnum : ∀ user_id n, jsNumber user_id = some n →
      storedUserId user_id = .num n := by
    intro user_id n h
    unfold storedUserId
    rw [h]
  refine ⟨hnum, ?_, ?_, ?_, ?_⟩
  · intro user_id h
    unfold storedUserId
    rw [h]
  · intro st user_id address lat lng h1 h2
    have hval : ¬ (user_id = "" ∨ address = "") := by tauto
    unfold createAddress
    rw [if_neg hval]
    exact ⟨_, rfl, rfl⟩
  · intro st user_id image_car plate_number car_type h1 h2 h3
    have hval : ¬ (user_id = "" ∨ plate_number = "" ∨ car_type = "") := by tauto
    unfold createRiderCar
    rw [if_neg hval]
    exact ⟨_, rfl, rfl⟩
  · intro st name password phone picture role u st' h
    unfold createUser at h
    by_cases hval : name = "" ∨ password = "" ∨ phone = ""
    · rw [if_pos hval] at h
      simp at h
    · rw [if_neg hval] at h
      cases hrole : normalizeRoleInt role with
      | error e =>
        rw [hrole] at h
        simp at h
      | ok r =>
        rw [hrole] at h
        cases hguard : assertPhoneNotDuplicate st.users phone with
        | error e =>
          rw [hguard] at h
          simp at h
        | ok v =>
          rw [hguard] at h
          rw [Prod.mk.injEq] at h
          obtain ⟨hu, hst⟩ := h
          injection hu with hu'
          subst hu'
          exact ⟨rfl, jsNumber_toString _, hnum _ _ (jsNumber_toString _),
            fun s hcon => JsVal.noConfusion hcon⟩

theorem foreignKey_numeric_mismatch_witness :
    (storedUserId "7" = .num 7) ∧
    (storedUserId "abc" = .str "abc") ∧
    (∃ d, (createAddress ⟨[], [], [], []⟩ "7" "x" none none).1 = .ok d ∧
       d.doc.user_id = storedUserId "7") ∧
    (∃ d, (createRiderCar ⟨[], [], [], []⟩ "7" none "p" "car").1 = .ok d ∧
       d.doc.user_id = storedUserId "7") ∧
    ("1" = toString (1 : Nat) ∧ jsNumber "1" = some 1 ∧
     storedUserId "1" = .num 1 ∧ JsVal.num 1 ≠ JsVal.str "1") := by
  refine ⟨foreignKey_numeric_mismatch.1 "7" 7 rfl,
    foreignKey_numeric_mismatch.2.1 "abc" rfl,
    foreignKey_numeric_mismatch.2.2.1 ⟨[], [], [], []⟩ "7" "x" none none
      (by decide) (by decide),
    foreignKey_numeric_mismatch.2.2.2.1 ⟨[], [], [], []⟩ "7" none "p" "car"
      (by decide) (by decide) (by decide), ?_⟩
  have T := foreignKey_numeric_mismatch.2.2.2.2 ⟨[], [], [], []⟩ "A" "x" "1"
    none none
    { id := "1", doc := { user_id := 1, name := "A", password := "x",
                          phone := "1", picture := none, role := 0 } }
    ⟨[("user_seq", 1)],
     [("1", { user_id := 1, name := "A", password := "x", phone := "1",
              picture := none, role := 0 })], [], []⟩ rfl
  exact ⟨T.1, T.2.1, T.2.2.1, T.2.2.2 "1"⟩

end DeliveryApi
